import Mathlib

/-!
Verification of the sales-metrics pipeline in `dashboard_streamlit_vendas.py`.

The embedding covers the parts of the script that compute data (as opposed
to rendering): feature derivation inside `carregar_dados` (lines 72-75),
the global filter `df_filtrado` (lines 163-167), the headline metrics
`calcular_metricas_principais` (lines 82-104), the per-category summary
`resumo_categoria` (lines 271-275), and the top-level control flow around a
missing CSV file (lines 64-80 and 132-177).

Numeric columns are modelled as rationals.  The result of a float division
is modelled by `PFloat`, which makes the IEEE special values (`nan`,
`inf`, `-inf`) produced by pandas/numpy division by zero explicit; the
script never sees an exception from such a division (it even sets
`warnings.filterwarnings` to ignore).  Two-decimal rounding is modelled on
rationals; numpy rounds binary doubles half to even while `round2` below
rounds half up, a difference that only shows at exact ties, which no
theorem in this file relies on.
-/

namespace Vendas

/-- Result of a numpy/pandas float computation: a finite value, an
infinity, or NaN. -/
inductive PFloat where
  | nan : PFloat
  | posInf : PFloat
  | negInf : PFloat
  | val : ℚ → PFloat
  deriving DecidableEq

/-- Float division as numpy performs it: for a zero denominator the result
is `inf`, `-inf` or `nan` according to the sign of the numerator, and no
exception is raised. -/
def pdiv (a b : ℚ) : PFloat :=
  if b = 0 then
    if 0 < a then .posInf else if a < 0 then .negInf else .nan
  else .val (a / b)

/-- Multiplication of a float result by the scalar 100 (the `* 100` steps
of the script); infinities and NaN are absorbing. -/
def pmul100 : PFloat → PFloat
  | .nan => .nan
  | .posInf => .posInf
  | .negInf => .negInf
  | .val q => .val (q * 100)

/-- Two-decimal rounding of a finite value, as in `.round(2)`. -/
def round2 (q : ℚ) : ℚ := (round (q * 100) : ℚ) / 100

/-- `.round(2)` on a float result: NaN and infinities are fixed points of
numpy rounding. -/
def round2P : PFloat → PFloat
  | .val q => .val (round2 q)
  | x => x

/-- `Series.mean()`: sum divided by length; the mean of an empty series is
`nan` (a 0/0 division). -/
def pmean (l : List ℚ) : PFloat := pdiv l.sum (l.length : ℚ)

/-- Calendar date, the parsed `data` column (`pd.to_datetime`); the
pipeline consumes its year (for the `'M'` period label) and its month. -/
structure Data where
  year : Nat
  month : Nat
  day : Nat
  deriving DecidableEq

/-- One row of `dataset_vendas_completo.csv`, restricted to the columns
the pipeline reads.  `ano` is a separate CSV column, not derived from
`data`. -/
structure Row where
  data : Data
  ano : Int
  mes : Nat
  trimestre : String
  regiao : String
  produto : String
  categoria : String
  quantidade_vendida : ℚ
  preco_unitario : ℚ
  custo_unitario : ℚ
  faturamento : ℚ
  lucro_bruto : ℚ
  margem_lucro : ℚ
  ticket_medio : ℚ
  deriving DecidableEq

/-- A row after `carregar_dados` added the derived columns. -/
structure DRow extends Row where
  ano_mes : String
  semestre : String
  ano_semestre : String
  roi : PFloat
  deriving DecidableEq

/-- Zero-padded two-digit month of the `'M'` period label. -/
def pad2 (n : Nat) : String := if n < 10 then "0" ++ toString n else toString n

/-- Feature derivation performed row-wise by `carregar_dados`, lines 72-75:
`ano_mes` from the date, `semestre` from the date month, `ano_semestre`
from the `ano` column and `semestre` joined by a hyphen, and `roi` as
`((lucro_bruto / (custo_unitario * quantidade_vendida)) * 100).round(2)`. -/
def deriveRow (r : Row) : DRow :=
  let semestre := if r.data.month ≤ 6 then "S1" else "S2"
  { r with
    ano_mes := toString r.data.year ++ "-" ++ pad2 r.data.month
    semestre := semestre
    ano_semestre := toString r.ano ++ "-" ++ semestre
    roi := round2P (pmul100 (pdiv r.lucro_bruto
      (r.custo_unitario * r.quantidade_vendida))) }

/-- `carregar_dados` (lines 64-80): parse the CSV and add the derived
columns; a missing file raises `FileNotFoundError`, which the function
catches, emitting `st.error` and returning `None`.  The file argument is
`none` when the CSV is absent. -/
def carregar_dados (file : Option (List Row)) : Option (List DRow) :=
  match file with
  | none => none
  | some rows => some (rows.map deriveRow)

/-- `sorted(df['ano'].unique())` (line 139): the distinct years in order. -/
def anos_disponiveis (df : List DRow) : List Int :=
  List.insertionSort (· ≤ ·) (df.map (·.ano)).dedup

/-- `sorted(df['regiao'].unique())` (line 147). -/
def regioes_disponiveis (df : List DRow) : List String :=
  List.insertionSort (· ≤ ·) (df.map (·.regiao)).dedup

/-- `sorted(df['produto'].unique())` (line 155). -/
def produtos_disponiveis (df : List DRow) : List String :=
  List.insertionSort (· ≤ ·) (df.map (·.produto)).dedup

/-- The global filter `df_filtrado` (lines 163-167): rows whose `ano`,
`regiao` and `produto` are each in the corresponding multiselect value. -/
def df_filtrado (df : List DRow) (anos : List Int) (regioes : List String)
    (produtos : List String) : List DRow :=
  df.filter (fun r =>
    anos.contains r.ano && regioes.contains r.regiao
      && produtos.contains r.produto)

/-- The dictionary returned by `calcular_metricas_principais`. -/
structure Metricas where
  faturamento_total : ℚ
  crescimento_yoy : PFloat
  margem_media : PFloat
  ticket_medio : PFloat
  volume_total : ℚ
  faturamento_2023 : ℚ
  faturamento_2024 : ℚ
  deriving DecidableEq

/-- `calcular_metricas_principais` (lines 82-104).  The YoY growth divides
by the 2023 revenue sum with no zero check, so its value is a `PFloat`. -/
def calcular_metricas_principais (df : List DRow) : Metricas :=
  let faturamento_total := (df.map (·.faturamento)).sum
  let faturamento_2023 := ((df.filter (fun r => r.ano == 2023)).map (·.faturamento)).sum
  let faturamento_2024 := ((df.filter (fun r => r.ano == 2024)).map (·.faturamento)).sum
  let crescimento_yoy := pmul100 (pdiv (faturamento_2024 - faturamento_2023) faturamento_2023)
  let margem_media := pmean (df.map (·.margem_lucro))
  let ticket_medio := pmean (df.map (·.ticket_medio))
  let volume_total := (df.map (·.quantidade_vendida)).sum
  ⟨faturamento_total, crescimento_yoy, margem_media, ticket_medio, volume_total,
    faturamento_2023, faturamento_2024⟩

/-- Revenue summed over the rows of one year,
`df[df['ano'] == y]['faturamento'].sum()`. -/
def faturamento_ano (df : List DRow) (y : Int) : ℚ :=
  ((df.filter (fun r => r.ano == y)).map (·.faturamento)).sum

/-- One row of the `resumo_categoria` table. -/
structure ResumoCat where
  categoria : String
  faturamento : ℚ
  quantidade_vendida : ℚ
  margem_lucro : PFloat
  deriving DecidableEq

/-- The group keys of `groupby('categoria')`: the distinct categories,
sorted (pandas sorts group keys by default). -/
def categorias (df : List DRow) : List String :=
  List.insertionSort (· ≤ ·) (df.map (·.categoria)).dedup

/-- The revenue total of one category group, before any rounding. -/
def faturamento_categoria (df : List DRow) (c : String) : ℚ :=
  ((df.filter (fun r => r.categoria == c)).map (·.faturamento)).sum

/-- `resumo_categoria` (lines 271-275): group by `categoria`, aggregate
revenue and quantity by sum and margin by mean, then `.round(2)` the
aggregated frame. -/
def resumo_categoria (df : List DRow) : List ResumoCat :=
  (categorias df).map (fun c =>
    let g := df.filter (fun r => r.categoria == c)
    ⟨c, round2 ((g.map (·.faturamento)).sum),
      round2 ((g.map (·.quantidade_vendida)).sum),
      round2P (pmean (g.map (·.margem_lucro)))⟩)

/-- Observable outcome of one script run, as far as the data pipeline is
concerned: the `st.error` messages emitted, and the filtered table and
metrics when they were computed. -/
structure Sessao where
  erros : List String
  filtrado : Option (List DRow)
  metricas : Option Metricas

/-- Top-level flow of the script around the data (lines 132-177): load the
data; when the load failed (`df is None`) two error messages are shown
(one inside `carregar_dados`, one at line 177) and neither filtering nor
metrics nor any page rendering over the data runs; otherwise the filters
(defaulting to every available value) are applied and the metrics
computed. -/
def executar_dashboard (file : Option (List Row)) : Sessao :=
  match carregar_dados file with
  | none =>
      ⟨["Arquivo dataset_vendas_completo.csv nao encontrado. Por favor, gere o dataset primeiro.",
        "Nao foi possivel carregar os dados. Verifique se o arquivo existe."],
        none, none⟩
  | some df =>
      let filtrado := df_filtrado df (anos_disponiveis df) (regioes_disponiveis df)
        (produtos_disponiveis df)
      ⟨[], some filtrado, some (calcular_metricas_principais filtrado)⟩

/-- The half formula in the words of the specification: "S1" if the
calendar month is at most 6, else "S2". -/
def halfSpec (month : Nat) : String := if month ≤ 6 then "S1" else "S2"

/-- ROI behaviour in the words of the amended claim: when the cost basis
`custo_unitario * quantidade_vendida` is zero the value is `inf`, `-inf`
or `nan` according to the sign of `lucro_bruto` (never an exception);
otherwise it is the ROI formula rounded to two decimals. -/
def roiAmended (r : Row) : PFloat :=
  if r.custo_unitario * r.quantidade_vendida = 0 then
    if 0 < r.lucro_bruto then .posInf
    else if r.lucro_bruto < 0 then .negInf
    else .nan
  else .val (round2 (r.lucro_bruto / (r.custo_unitario * r.quantidade_vendida) * 100))

/-- A concrete baseline row for the concrete-input theorems. -/
def row0 : Row :=
  { data := ⟨2023, 3, 15⟩, ano := 2023, mes := 3, trimestre := "Q1",
    regiao := "Sudeste", produto := "Notebook", categoria := "Eletronicos",
    quantidade_vendida := 2, preco_unitario := 10, custo_unitario := 5,
    faturamento := 20, lucro_bruto := 10, margem_lucro := 50, ticket_medio := 10 }

/-- A row with a zero cost basis and a positive gross profit. -/
def rowDenomZero : Row := { row0 with custo_unitario := 0, lucro_bruto := 1 }

/-- Synthetic two-row table: 2023 revenue 100, 2024 revenue 150. -/
def dfYoY : List DRow :=
  [deriveRow { row0 with ano := 2023, faturamento := 100 },
   deriveRow { row0 with ano := 2024, faturamento := 150 }]

/-- The three-row scenario table of the specification: (region A, 2023,
revenue 100), (region A, 2024, revenue 120), (region B, 2023, revenue 50). -/
def dfScen : List DRow :=
  [deriveRow { row0 with regiao := "A", ano := 2023, faturamento := 100 },
   deriveRow { row0 with regiao := "A", ano := 2024, faturamento := 120 },
   deriveRow { row0 with regiao := "B", ano := 2023, faturamento := 50 }]

/-- A table whose only revenue is in 2024. -/
def df2024 : List DRow := [deriveRow { row0 with ano := 2024, faturamento := 100 }]

/-- A table whose only year is 2022. -/
def df2022 : List DRow := [deriveRow { row0 with ano := 2022, faturamento := 100 }]

/-- Two categories whose revenues each round to zero at two decimals. -/
def dfRound : List DRow :=
  [deriveRow { row0 with categoria := "A", faturamento := 1/250 },
   deriveRow { row0 with categoria := "B", faturamento := 1/250 }]

/-- C1 counterexample: a loaded row whose cost basis
`custo_unitario * quantidade_vendida` is zero gets roi `inf`, not
null/NaN, when its gross profit is positive — the division produces an
uncontrolled infinity (though indeed no exception). -/
theorem C1_roi_zero_denominador_counterexample :
    rowDenomZero.custo_unitario * rowDenomZero.quantidade_vendida = 0 ∧
      (deriveRow rowDenomZero).roi = PFloat.posInf ∧
      (deriveRow rowDenomZero).roi ≠ PFloat.nan := by
  refine ⟨by norm_num [rowDenomZero, row0], ?_, ?_⟩ <;>
    simp [deriveRow, rowDenomZero, row0, pdiv, pmul100, round2P]

/-- C1 amended: the roi column never raises; when the cost basis is zero
it is `inf`, `-inf` or NaN according to the sign of the gross profit
(NaN exactly when the gross profit is also zero), and otherwise it equals
`(gross_profit / (unit_cost * quantity)) * 100` rounded to 2 decimals. -/
theorem C1_roi_amended (r : Row) : (deriveRow r).roi = roiAmended r := by
  unfold deriveRow roiAmended pdiv pmul100 round2P
  by_cases h : r.custo_unitario * r.quantidade_vendida = 0 <;>
    by_cases h1 : 0 < r.lucro_bruto <;>
    by_cases h2 : r.lucro_bruto < 0 <;>
    simp [h, h1, h2]

/-- C2 counterexample: the derived half of the baseline row is "S1" as
claimed, but `ano_semestre` is not the year string directly followed by
the half value — the script joins them with a hyphen. -/
theorem C2_ano_semestre_counterexample :
    (deriveRow row0).semestre = "S1" ∧
      (deriveRow row0).ano_semestre ≠ toString row0.ano ++ (deriveRow row0).semestre := by
  constructor <;> decide

/-- C2 amended: the derived half is "S1" when the calendar month of the
row date is at most 6 and "S2" otherwise, and `ano_semestre` is the year
string, a hyphen, then the half value. -/
theorem C2_ano_semestre_amended (r : Row) :
    (deriveRow r).semestre = halfSpec r.data.month ∧
      (deriveRow r).ano_semestre = toString r.ano ++ "-" ++ (deriveRow r).semestre := by
  unfold deriveRow halfSpec
  by_cases h : r.data.month ≤ 6 <;> simp [h]

/-- C3: the filter keeps exactly the rows whose year, region and product
are each among the selected values — a conjunction across the three
dimensions. -/
theorem C3_filtro_conjuncao (df : List DRow) (anos : List Int)
    (regioes produtos : List String) (r : DRow) :
    r ∈ df_filtrado df anos regioes produtos ↔
      r ∈ df ∧ r.ano ∈ anos ∧ r.regiao ∈ regioes ∧ r.produto ∈ produtos := by
  simp [df_filtrado, List.mem_filter, List.contains, List.elem_iff, and_assoc]

/-- C5: an empty selection on any one of the three dimensions filters out
every row, and no error is involved — the filter is total and returns the
empty table. -/
theorem C5_selecao_vazia (df : List DRow) (anos : List Int)
    (regioes produtos : List String) :
    df_filtrado df [] regioes produtos = [] ∧
      df_filtrado df anos [] produtos = [] ∧
      df_filtrado df anos regioes [] = [] := by
  refine ⟨?_, ?_, ?_⟩ <;> simp [df_filtrado]

/-- C4: filtering with the full sets of available distinct years, regions
and products (the default multiselect values) returns the table unchanged:
the same rows in the same order. -/
theorem C4_filtro_identidade (df : List DRow) :
    df_filtrado df (anos_disponiveis df) (regioes_disponiveis df)
      (produtos_disponiveis df) = df := by
  unfold df_filtrado
  rw [List.filter_eq_self]
  intro r hr
  have h1 : r.ano ∈ anos_disponiveis df := by
    unfold anos_disponiveis
    rw [(List.perm_insertionSort _ _).mem_iff, List.mem_dedup]
    exact List.mem_map.mpr ⟨r, hr, rfl⟩
  have h2 : r.regiao ∈ regioes_disponiveis df := by
    unfold regioes_disponiveis
    rw [(List.perm_insertionSort _ _).mem_iff, List.mem_dedup]
    exact List.mem_map.mpr ⟨r, hr, rfl⟩
  have h3 : r.produto ∈ produtos_disponiveis df := by
    unfold produtos_disponiveis
    rw [(List.perm_insertionSort _ _).mem_iff, List.mem_dedup]
    exact List.mem_map.mpr ⟨r, hr, rfl⟩
  simp [List.contains, List.elem_iff, h1, h2, h3]

/-- C7 counterexample: on a table whose revenue is all in 2024 the prior
year revenue is zero, and the YoY growth is `inf`, an uncontrolled numeric
value, rather than NaN/null. -/
theorem C7_yoy_denominador_zero_counterexample :
    (calcular_metricas_principais df2024).faturamento_2023 = 0 ∧
      (calcular_metricas_principais df2024).crescimento_yoy = PFloat.posInf ∧
      (calcular_metricas_principais df2024).crescimento_yoy ≠ PFloat.nan := by
  refine ⟨rfl, ?_, ?_⟩ <;>
    simp [calcular_metricas_principais, df2024, deriveRow, row0, pdiv, pmul100]

/-- C7 amended: when the prior-year (2023) revenue sum is zero the YoY
growth raises no exception; it is `inf` when the 2024 revenue sum is
positive, `-inf` when it is negative, and NaN when it is also zero. -/
theorem C7_yoy_denominador_zero_amended (df : List DRow)
    (h : (calcular_metricas_principais df).faturamento_2023 = 0) :
    (calcular_metricas_principais df).crescimento_yoy =
      (if 0 < (calcular_metricas_principais df).faturamento_2024 then PFloat.posInf
        else if (calcular_metricas_principais df).faturamento_2024 < 0 then PFloat.negInf
        else PFloat.nan) := by
  simp only [calcular_metricas_principais] at h ⊢
  rw [h, sub_zero]
  unfold pdiv pmul100
  split_ifs <;> simp_all

/-- Witness for C7 amended at the concrete table `df2024`. -/
theorem C7_yoy_denominador_zero_amended_witness :
    (calcular_metricas_principais df2024).crescimento_yoy =
      (if 0 < (calcular_metricas_principais df2024).faturamento_2024 then PFloat.posInf
        else if (calcular_metricas_principais df2024).faturamento_2024 < 0 then PFloat.negInf
        else PFloat.nan) :=
  C7_yoy_denominador_zero_amended df2024 rfl

/-- C9: when the CSV file is absent the loader signals the failure as a
caught, non-throwing result; the session shows user-facing error messages
and computes neither the filtered table nor the metrics — and the metrics
are skipped exactly when the file is absent. -/
theorem C9_arquivo_ausente :
    (executar_dashboard none).metricas = none ∧
      (executar_dashboard none).filtrado = none ∧
      (executar_dashboard none).erros ≠ [] ∧
      (∀ file, (executar_dashboard file).metricas = none ↔ file = none) := by
  refine ⟨rfl, rfl, by simp [executar_dashboard, carregar_dados], ?_⟩
  intro file
  cases file <;> simp [executar_dashboard, carregar_dados]

/-- C10: the YoY growth always compares the fixed years 2024 and 2023 —
it equals the 2024 revenue sum minus the 2023 revenue sum, divided by the
2023 revenue sum, times 100, whatever years the table holds; on a table
whose only year is 2022 both sums are zero. -/
theorem C10_anos_fixos (df : List DRow) :
    (calcular_metricas_principais df).faturamento_2023 = faturamento_ano df 2023 ∧
      (calcular_metricas_principais df).faturamento_2024 = faturamento_ano df 2024 ∧
      (calcular_metricas_principais df).crescimento_yoy =
        pmul100 (pdiv (faturamento_ano df 2024 - faturamento_ano df 2023)
          (faturamento_ano df 2023)) ∧
      faturamento_ano df2022 2023 = 0 ∧ faturamento_ano df2022 2024 = 0 := by
  exact ⟨rfl, rfl, rfl, rfl, rfl⟩

/-- C6: the YoY growth on the synthetic table (2023 revenue 100, 2024
revenue 150) is 50; on the three-row scenario table, filtering the region
to A gives 20 and filtering it to B gives -100 (the other two dimensions
keep their default full selections). -/
theorem C6_yoy_cenarios :
    (calcular_metricas_principais dfYoY).crescimento_yoy = PFloat.val 50 ∧
      (calcular_metricas_principais (df_filtrado dfScen (anos_disponiveis dfScen)
        ["A"] (produtos_disponiveis dfScen))).crescimento_yoy = PFloat.val 20 ∧
      (calcular_metricas_principais (df_filtrado dfScen (anos_disponiveis dfScen)
        ["B"] (produtos_disponiveis dfScen))).crescimento_yoy = PFloat.val (-100) := by
  have hanos : anos_disponiveis dfScen = [2023, 2024] := by
    simp +decide [anos_disponiveis, dfScen, deriveRow, row0, List.insertionSort,
      List.orderedInsert]
  have hprod : produtos_disponiveis dfScen = ["Notebook"] := by
    simp +decide [produtos_disponiveis, dfScen, deriveRow, row0, List.insertionSort,
      List.orderedInsert]
  rw [hanos, hprod]
  refine ⟨?_, ?_, ?_⟩ <;>
    simp +decide [calcular_metricas_principais, df_filtrado, dfYoY, dfScen, deriveRow,
      row0, pdiv, pmul100] <;>
    norm_num [pdiv, pmul100]

/-- Splitting a list by a predicate splits the sum of a mapped rational. -/
theorem soma_filtro_particao {α : Type} (p : α → Bool) (f : α → ℚ) (l : List α) :
    ((l.filter p).map f).sum + ((l.filter (fun a => !(p a))).map f).sum
      = (l.map f).sum := by
  induction l with
  | nil => simp
  | cons a t ih => by_cases h : p a <;> simp [h, ← ih] <;> ring

/-- Summing the per-key group revenue over a duplicate-free key list that
covers every row recovers the total revenue. -/
theorem soma_grupos_categoria (keys : List String) (l : List DRow)
    (hnd : keys.Nodup) (hcov : ∀ r ∈ l, r.categoria ∈ keys) :
    (keys.map (faturamento_categoria l)).sum = (l.map (·.faturamento)).sum := by
  induction keys generalizing l with
  | nil =>
    cases l with
    | nil => simp
    | cons a t => exact absurd (hcov a (List.mem_cons_self a t)) (by simp)
  | cons k ks ih =>
    rw [List.map_cons, List.sum_cons]
    have hk : k ∉ ks := (List.nodup_cons.mp hnd).1
    have hnd2 : ks.Nodup := (List.nodup_cons.mp hnd).2
    have hgrp : ∀ c ∈ ks, faturamento_categoria l c =
        faturamento_categoria (l.filter (fun r => !(r.categoria == k))) c := by
      intro c hc
      have hck : c ≠ k := fun h => hk (h ▸ hc)
      unfold faturamento_categoria
      rw [List.filter_filter]
      have hfil : l.filter (fun a => a.categoria == c && !(a.categoria == k))
          = l.filter (fun r => r.categoria == c) := by
        apply List.filter_congr
        intro r _
        by_cases h : r.categoria = c
        · simp [h, hck]
        · simp [h]
      rw [hfil]
    rw [List.map_congr_left hgrp,
      ih (l.filter fun r => !(r.categoria == k)) hnd2 (by
        intro r hr
        rcases List.mem_filter.mp hr with ⟨hrl, hne⟩
        rcases List.mem_cons.mp (hcov r hrl) with h | h
        · exact absurd (beq_iff_eq.mpr h) (by simpa using hne)
        · exact h)]
    exact soma_filtro_particao (fun r => r.categoria == k) (·.faturamento) l

/-- C8 counterexample: with two categories whose revenues are each 1/250,
the two-decimal rounding inside `resumo_categoria` sends both group totals
to zero, so the summed per-category revenue (0) differs from the total
revenue of the table (1/125). -/
theorem C8_particao_counterexample :
    ((resumo_categoria dfRound).map (·.faturamento)).sum ≠
      (calcular_metricas_principais dfRound).faturamento_total := by
  have hAB : (("A":String) ≤ "B") := by rw [String.le_iff_toList_le]; decide
  have hcat : categorias dfRound = ["A", "B"] := by
    simp +decide [categorias, dfRound, deriveRow, row0, List.insertionSort,
      List.orderedInsert, hAB]
  unfold resumo_categoria
  rw [hcat]
  simp +decide [calcular_metricas_principais, dfRound, deriveRow, row0, round2]
  norm_num [round_eq]

/-- C8 amended: the per-category revenue sums, taken before the
two-decimal rounding that `resumo_categoria` applies, add up to the total
revenue of the filtered table; the summary has exactly one row per
category that occurs in the table, so empty groups are absent rather than
reported as zero.  (The rounded totals the summary displays can differ
from the exact ones, as the counterexample shows.) -/
theorem C8_particao_amended (df : List DRow) :
    ((categorias df).map (faturamento_categoria df)).sum
        = (calcular_metricas_principais df).faturamento_total ∧
      (resumo_categoria df).map (·.categoria) = categorias df ∧
      (∀ c, c ∈ categorias df ↔ ∃ r ∈ df, r.categoria = c) := by
  refine ⟨?_, ?_, ?_⟩
  · have hnd : (categorias df).Nodup :=
      ((List.perm_insertionSort _ _).nodup_iff).mpr (List.nodup_dedup _)
    have hcov : ∀ r ∈ df, r.categoria ∈ categorias df := by
      intro r hr
      unfold categorias
      rw [(List.perm_insertionSort _ _).mem_iff, List.mem_dedup]
      exact List.mem_map.mpr ⟨r, hr, rfl⟩
    exact soma_grupos_categoria _ df hnd hcov
  · unfold resumo_categoria
    rw [List.map_map]
    exact List.map_id'' (fun c => rfl) _
  · intro c
    unfold categorias
    rw [(List.perm_insertionSort _ _).mem_iff, List.mem_dedup, List.mem_map]

end Vendas
